import Mathlib

/-!
Verification of the QuiteRSS SQLite driver adapter
(`src/3rdparty/sqlitex/sqlitedriver.cpp`).

Strings (`QString`) are modelled as lists of characters; Qt's
`QString::toLower` is modelled by `Char.toLower` per character, which agrees
with it on ASCII (all identifiers relevant here are ASCII).  Machine integers
are modelled as `Int`/`Nat`; the native SQLite engine is modelled as a stub
that replays a script of step outcomes and counts engine invocations.
-/

namespace SqliteDriver

abbrev Str := List Char

/-- model of `QString::toLower` (agrees with Qt on ASCII input). -/
def asciiToLower (s : Str) : Str := s.map Char.toLower

/-! ## Type mapper: `qGetColumnType` (sqlitedriver.cpp lines 63–78) -/

/-- the `QVariant::Type` tags used by the driver. -/
inductive QVariantType
  | invalid
  | vint
  | vuint
  | vlonglong
  | vdouble
  | vstring
  | vbytearray
deriving DecidableEq, Repr

/-- `qGetColumnType` from sqlitedriver.cpp: lowercases the declared type
name and matches it against the known SQLite declared-type names. -/
def qGetColumnType (tpName : Str) : QVariantType :=
  let typeName := asciiToLower tpName
  if typeName = "integer".data ∨ typeName = "int".data then
    QVariantType.vint
  else if typeName = "double".data ∨ typeName = "float".data
      ∨ typeName = "real".data ∨ "numeric".data.isPrefixOf typeName then
    QVariantType.vdouble
  else if typeName = "blob".data then
    QVariantType.vbytearray
  else
    QVariantType.vstring

/-! ## Identifier escaping: `_q_escapeIdentifier` (lines 52–61) -/

/-- model of `QString::replace(QChar, QString)`: every occurrence of the
single character `t` is replaced by the string `r`. -/
def replaceChar (t : Char) (r : Str) : Str → Str
  | [] => []
  | c :: cs => (if c = t then r else [c]) ++ replaceChar t r cs

/-- `_q_escapeIdentifier` from sqlitedriver.cpp: if the identifier is
nonempty and neither begins nor ends with a double quote, double every
embedded quote, wrap the whole string in quotes, and then replace every
dot by `"."`; otherwise return it unchanged.
(`identifier.left(1)` and `identifier.right(1)` are modelled by
`take 1` and `drop (length - 1)`.) -/
def escapeIdentifierImpl (identifier : Str) : Str :=
  if identifier ≠ [] ∧ identifier.take 1 ≠ ['"']
      ∧ identifier.drop (identifier.length - 1) ≠ ['"'] then
    replaceChar '.' ['"', '.', '"']
      ('"' :: replaceChar '"' ['"', '"'] identifier ++ ['"'])
  else identifier

/-- one dot-separated segment, quoted, with embedded quotes doubled. -/
def wrapSeg (seg : Str) : Str := '"' :: replaceChar '"' ['"', '"'] seg ++ ['"']

/-- split a string at every dot (the dots are dropped; `n` dots give
`n + 1` segments). -/
def splitOnDot : Str → List Str
  | [] => [[]]
  | c :: cs =>
    if c = '.' then [] :: splitOnDot cs
    else
      match splitOnDot cs with
      | [] => [[c]]
      | seg :: rest => (c :: seg) :: rest

/-- join segments with a dot after transforming each by `f`. -/
def joinDot (f : Str → Str) : List Str → Str
  | [] => []
  | [seg] => f seg
  | seg :: seg2 :: segs => f seg ++ '.' :: joinDot f (seg2 :: segs)

/-- the escaping transformation exactly as the spec claim words it:
unchanged when already fully wrapped in quotes at both ends, otherwise
each dot-separated segment is wrapped in quotes with embedded quotes
doubled. -/
def claimEscape (s : Str) : Str :=
  if s.take 1 = ['"'] ∧ s.drop (s.length - 1) = ['"'] then s
  else joinDot wrapSeg (splitOnDot s)

/-! ## Errors (`QSqlError`, `qMakeError`, lines 80–86) -/

inductive QSqlErrorType
  | NoError
  | ConnectionError
  | StatementError
  | TransactionError
deriving DecidableEq, Repr

/-- `QSqlError`: driver text, database text, category, native code.  A
default-constructed error is the cleared/no-error value. -/
structure QSqlError where
  driverText : Str := []
  databaseText : Str := []
  errType : QSqlErrorType := QSqlErrorType.NoError
  code : Int := -1
deriving DecidableEq, Repr

/-- `QSqlError::isValid`: an error is set iff its category is not
`NoError` (every error the driver constructs carries a category). -/
def QSqlError.isValid (e : QSqlError) : Bool := e.errType ≠ QSqlErrorType.NoError

/-- the connection handle as seen by `qMakeError`: it only reads
`sqlite3_errmsg16`, modelled as a stored diagnostic string. -/
structure Access where
  errmsg : Str
deriving DecidableEq, Repr

/-- `qMakeError` (lines 80–86): packages the caller's context message with
the native diagnostic read from the handle. -/
def qMakeError (access : Access) (descr : Str) (t : QSqlErrorType)
    (errorCode : Int) : QSqlError :=
  { driverText := descr, databaseText := access.errmsg,
    errType := t, code := errorCode }

/-! ## Values -/

/-- opaque model of a C++ `double`: its identity (`bits`) together with the
engine's 32/64-bit integer readings of it, carried as data because no claim
depends on the numeric conversion itself. -/
structure DoubleV where
  bits : Nat
  asInt32 : Int
  asInt64 : Int
deriving DecidableEq, Repr

/-- a cell of a fetched row, tagged by its SQLite storage class. -/
inductive SqlVal
  | vnull
  | vinteger (i : Int)
  | vfloat (d : DoubleV)
  | vtext (s : Str)
  | vblob (b : List Nat)
deriving DecidableEq, Repr

/-- `sqlite3_column_type`: the numeric storage class of a cell
(SQLITE_INTEGER = 1, FLOAT = 2, TEXT = 3, BLOB = 4, NULL = 5). -/
def SqlVal.storageClass : SqlVal → Int
  | .vinteger _ => 1
  | .vfloat _ => 2
  | .vtext _ => 3
  | .vblob _ => 4
  | .vnull => 5

/-- the `QVariant` values the driver produces and binds. -/
inductive QVariant
  | invalid
  | nullOf (t : QVariantType)
  | vint (i : Int)
  | vuint (i : Int)
  | vlonglong (i : Int)
  | vdouble (d : DoubleV)
  | vstring (s : Str)
  | vbytes (b : List Nat)
deriving DecidableEq, Repr

/-- `QVariant::isNull`: true for a default (invalid) variant and for a
typed null such as `QVariant(QVariant::String)`. -/
def QVariant.isNull : QVariant → Bool
  | .invalid => true
  | .nullOf _ => true
  | _ => false

/-- `QSql::NumericalPrecisionPolicy`. -/
inductive PrecisionPolicy
  | LowPrecisionInt32
  | LowPrecisionInt64
  | LowPrecisionDouble
  | HighPrecision
deriving DecidableEq, Repr

/-- the per-cell decoding switch of `fetchNext`'s SQLITE_ROW branch
(lines 238–272): blob, int64, float per precision policy, typed null for
NULL, and text for the default case. -/
def decodeColumn (policy : PrecisionPolicy) : SqlVal → QVariant
  | .vblob b => QVariant.vbytes b
  | .vinteger i => QVariant.vlonglong i
  | .vfloat d =>
    match policy with
    | .LowPrecisionInt32 => QVariant.vint d.asInt32
    | .LowPrecisionInt64 => QVariant.vlonglong d.asInt64
    | _ => QVariant.vdouble d
  | .vnull => QVariant.nullOf QVariantType.vstring
  | .vtext s => QVariant.vstring s

/-! ## Column metadata (`QSqlField`, `initColumns`, lines 150–200) -/

structure QSqlField where
  name : Str
  fieldType : QVariantType
  sqlType : Int := -1
  requiredStatus : Bool := false
  defaultValue : QVariant := QVariant.invalid
  autoValue : Bool := false
deriving DecidableEq, Repr

/-! ## The stub engine: a prepared statement replaying a script -/

/-- one outcome of `sqlite3_step`: either SQLITE_ROW together with the
row's cells, or a bare result code (SQLITE_DONE = 101, SQLITE_ERROR = 1,
SQLITE_BUSY = 5, SQLITE_CONSTRAINT = 19, SQLITE_MISUSE = 21, ...). -/
inductive StepOutcome
  | row (vals : List SqlVal)
  | code (c : Int)
deriving DecidableEq, Repr

/-- a prepared statement of the stub engine: the step outcomes it will
produce from its start position, its compiled result shape, its declared
placeholder count, the per-slot `sqlite3_bind_*` return codes (empty means
every bind succeeds), and the code `sqlite3_reset` returns. -/
structure Stmt where
  script : List StepOutcome
  colCount : Nat
  colNames : List Str
  declTypes : List Str
  bindParamCount : Nat
  bindCodes : List Int := []
  resetCode : Int := 0
deriving DecidableEq, Repr

/-- a recorded engine bind invocation, tagged as the code's bind switch
tags it (lines 404–435). -/
inductive BindCall
  | bnull
  | bblob (b : List Nat)
  | bint (i : Int)
  | bdouble (d : DoubleV)
  | bint64 (i : Int)
  | btext (s : Str)
deriving DecidableEq, Repr

/-- which engine bind call the bind switch issues for a value. -/
def bindCallOf (v : QVariant) : BindCall :=
  if v.isNull then BindCall.bnull
  else
    match v with
    | .vbytes b => BindCall.bblob b
    | .vint i => BindCall.bint i
    | .vdouble d => BindCall.bdouble d
    | .vuint i => BindCall.bint64 i
    | .vlonglong i => BindCall.bint64 i
    | .vstring s => BindCall.btext s
    | .invalid => BindCall.bnull
    | .nullOf _ => BindCall.bnull

/-- the sequential bind loop: returns the bind calls issued and the first
failing bind code (`0` when every bind succeeded); a failure stops the
loop after the failing call. -/
def bindAll : List QVariant → List Int → List BindCall × Int
  | [], _ => ([], 0)
  | v :: vs, codes =>
    let c := codes.headD 0
    let call := bindCallOf v
    if c ≠ 0 then ([call], c)
    else
      let r := bindAll vs codes.tail
      (call :: r.1, r.2)

/-! ## The result cursor state (`SQLiteResult` + `SQLiteResultPrivate`) -/

/-- `QSql::BeforeFirstRow`. -/
def beforeFirstRow : Int := -1
/-- `QSql::AfterLastRow`. -/
def afterLastRow : Int := -2

/-- combined state of `SQLiteResult` and its private part, plus the stub
engine's counters (`pos` is the statement's step position, `stepCount`
counts `sqlite3_step` invocations and `bindCalls` records the bind
invocations, as the spec's stub-engine tests demand). -/
structure ResultState where
  access : Access
  stmt : Option Stmt
  pos : Nat := 0
  stepCount : Nat := 0
  bindCalls : List BindCall := []
  skippedStatus : Bool := false
  skipRow : Bool := false
  rInf : List QSqlField := []
  firstRow : List QVariant := []
  atRow : Int := beforeFirstRow
  active : Bool := false
  select : Bool := false
  lastError : QSqlError := {}
  precisionPolicy : PrecisionPolicy := PrecisionPolicy.LowPrecisionDouble
deriving DecidableEq, Repr

/-- `SQLiteResultPrivate::initColumns` (lines 150–200): appends one field
per result column; the field type comes from the declared type name when
one exists, else from the storage-class hint, which is forced to `-1`
(never read from the engine) when the result set is empty. -/
def initColumns (stmt : Stmt) (curRow : Option (List SqlVal))
    (rInf : List QSqlField) : List QSqlField :=
  let nCols := stmt.colCount
  if nCols = 0 then rInf
  else
    rInf ++ (List.range nCols).map (fun i =>
      let colName := (stmt.colNames.getD i []).filter (fun c => c ≠ '"')
      let typeName := stmt.declTypes.getD i []
      let stp : Int :=
        match curRow with
        | none => -1
        | some vals => (vals.getD i SqlVal.vnull).storageClass
      let fieldType :=
        if typeName ≠ [] then qGetColumnType typeName
        else if stp = 1 then QVariantType.vint
        else if stp = 2 then QVariantType.vdouble
        else if stp = 4 then QVariantType.vbytearray
        else if stp = 3 then QVariantType.vstring
        else QVariantType.invalid
      { name := colName, fieldType := fieldType, sqlType := stp })

/-- write into the caller's value cache at a (possibly offset) index;
negative or out-of-range indices leave the cache unchanged. -/
def setVC (values : List QVariant) (n : Int) (x : QVariant) : List QVariant :=
  if n < 0 then values else values.set n.toNat x

/-- the `skipRow` branch's copy loop (lines 210–212):
`values[i] = firstRow[i]` for every index of the cached first row. -/
def copyFirstRow (firstRow values : List QVariant) : List QVariant :=
  (List.range firstRow.length).foldl
    (fun acc i => acc.set i (firstRow.getD i QVariant.invalid)) values

/-- the SQLITE_ROW decode loop (lines 238–272): for each of the `n`
columns of `rInf`, decode the cell and store it at `i + idx`. -/
def writeRowValues (policy : PrecisionPolicy) (n : Nat) (vals : List SqlVal)
    (idx : Int) (values : List QVariant) : List QVariant :=
  (List.range n).foldl
    (fun acc i =>
      setVC acc (Int.ofNat i + idx) (decodeColumn policy (vals.getD i SqlVal.vnull)))
    values

/-- `SQLiteResultPrivate::fetchNext` (lines 202–301) before accounting for
the aliasing of the initial fetch (see `fetchNext`): returns the
`hasRow` flag, the updated cursor state, and the updated value cache. -/
def fetchNextRaw (st : ResultState) (values : List QVariant) (idx : Int)
    (initialFetch : Bool) : Bool × ResultState × List QVariant :=
  if st.skipRow then
    -- already fetched: deliver the cached lookahead row exactly once
    (st.skippedStatus, { st with skipRow := false },
     copyFirstRow st.firstRow values)
  else
    let st1 := { st with skipRow := initialFetch }
    -- firstRow.clear(); firstRow.resize(sqlite3_column_count(stmt))
    let values1 :=
      if initialFetch then
        List.replicate ((st.stmt.map Stmt.colCount).getD 0) QVariant.invalid
      else values
    match st1.stmt with
    | none =>
      (false,
       { st1 with
          lastError :=
            { driverText := "Unable to fetch row".data,
              databaseText := "No query".data,
              errType := QSqlErrorType.ConnectionError, code := -1 },
          atRow := afterLastRow },
       values1)
    | some stmt =>
      let outcome := stmt.script.getD st1.pos (StepOutcome.code 101)
      let st2 := { st1 with pos := st1.pos + 1, stepCount := st1.stepCount + 1 }
      match outcome with
      | .row vals =>
        let st3 :=
          if st2.rInf.isEmpty then
            { st2 with rInf := initColumns stmt (some vals) st2.rInf }
          else st2
        if idx < 0 ∧ initialFetch = false then (true, st3, values1)
        else
          (true, st3,
           writeRowValues st3.precisionPolicy st3.rInf.length vals idx values1)
      | .code c =>
        if c = 101 then
          -- SQLITE_DONE: init columns from declared types only, mark
          -- AfterLast, reset the statement for reuse
          let st3 :=
            if st2.rInf.isEmpty then
              { st2 with rInf := initColumns stmt none st2.rInf }
            else st2
          (false, { st3 with atRow := afterLastRow, pos := 0 }, values1)
        else if c = 19 ∨ c = 1 then
          -- SQLITE_CONSTRAINT / SQLITE_ERROR: reset first so the
          -- diagnostic is specific; the reset's code is reported
          (false,
           { st2 with
              pos := 0,
              lastError :=
                qMakeError st2.access "Unable to fetch row".data
                  QSqlErrorType.ConnectionError stmt.resetCode,
              atRow := afterLastRow },
           values1)
        else
          -- SQLITE_MISUSE / SQLITE_BUSY / default
          (false,
           { st2 with
              lastError :=
                qMakeError st2.access "Unable to fetch row".data
                  QSqlErrorType.ConnectionError c,
              pos := 0,
              atRow := afterLastRow },
           values1)

/-- `fetchNext` with the aliasing of `exec`'s initial fetch made explicit:
the initial fetch is invoked on `d->firstRow` itself, so on an initial
fetch the final content of the value cache is also the new `firstRow`. -/
def fetchNext (st : ResultState) (values : List QVariant) (idx : Int)
    (initialFetch : Bool) : Bool × ResultState × List QVariant :=
  let r := fetchNextRaw st values idx initialFetch
  (r.1, if initialFetch then { r.2.1 with firstRow := r.2.2 } else r.2.1, r.2.2)

/-- `SQLiteResult::gotoNext` (lines 460–463). -/
def gotoNext (st : ResultState) (row : List QVariant) (idx : Int) :
    Bool × ResultState × List QVariant :=
  fetchNext st row idx false

/-- `SQLiteResult::exec` (lines 381–458): clear transient state, reset the
statement, re-bind the supplied values (failing with "Parameter count
mismatch" and no bind call when the count differs from the declared
placeholder count), then perform the single internal lookahead fetch. -/
def exec (st0 : ResultState) (boundValues : List QVariant) : Bool × ResultState :=
  let st := { st0 with
    skippedStatus := false, skipRow := false, rInf := [],
    lastError := {} }
  -- sqlite3_reset(d->stmt)
  let resetRes : Int := match st.stmt with | some s => s.resetCode | none => 0
  let st := { st with pos := 0 }
  if resetRes ≠ 0 then
    (false,
     { st with
        lastError :=
          qMakeError st.access "Unable to reset statement".data
            QSqlErrorType.StatementError resetRes,
        stmt := none })
  else
    let paramCount := (st.stmt.map Stmt.bindParamCount).getD 0
    if paramCount = boundValues.length then
      let bound := bindAll boundValues ((st.stmt.map Stmt.bindCodes).getD [])
      let st := { st with bindCalls := st.bindCalls ++ bound.1 }
      if bound.2 ≠ 0 then
        (false,
         { st with
            lastError :=
              qMakeError st.access "Unable to bind parameters".data
                QSqlErrorType.StatementError bound.2,
            stmt := none })
      else
        let r := fetchNext st st.firstRow 0 true
        let st := { r.2.1 with skippedStatus := r.1 }
        if st.lastError.isValid then
          (false, { st with select := false, active := false })
        else
          (true, { st with select := st.rInf.isEmpty = false, active := true })
    else
      (false,
       { st with
          lastError :=
            { driverText := "Parameter count mismatch".data,
              databaseText := [],
              errType := QSqlErrorType.StatementError, code := -1 } })

/-- `SQLiteResultPrivate::cleanup` (lines 130–139): finalize, clear the
record info and the lookahead flags, rewind the position, deactivate. -/
def cleanup (st : ResultState) : ResultState :=
  { st with stmt := none, rInf := [], skippedStatus := false,
            skipRow := false, atRow := beforeFirstRow, active := false }

/-- `SQLiteResult::prepare` (lines 345–379).  The stub compilation result
is supplied as arguments: the `sqlite3_prepare16_v2` return code, the
compiled statement it produced, and whether a non-whitespace tail
remained.  The guard on a closed or open-error connection returns `false`
immediately, before any state is touched. -/
def prepare (driverOpen driverOpenError : Bool) (st : ResultState)
    (compileRes : Int) (compiledStmt : Option Stmt) (tailRemainder : Bool) :
    Bool × ResultState :=
  if driverOpen = false ∨ driverOpenError = true then (false, st)
  else
    let st := cleanup st
    let st := { st with select := false, stmt := compiledStmt }
    if compileRes ≠ 0 then
      (false,
       { st with
          lastError :=
            qMakeError st.access "Unable to execute statement".data
              QSqlErrorType.StatementError compileRes,
          stmt := none })
    else if tailRemainder then
      (false,
       { st with
          lastError :=
            qMakeError st.access
              "Unable to execute multiple statements at a time".data
              QSqlErrorType.StatementError 21,
          stmt := none })
    else (true, st)

/-! ## The connection handle: `SQLiteDriver::close` (lines 610–623) -/

/-- a cursor as tracked by the driver's `results` list: whether it still
holds a statement handle, and the (ignored) code its finalize returns. -/
structure TrackedCursor where
  stmt : Option Nat
  finalizeCode : Int := 0
deriving DecidableEq, Repr

/-- the observable engine interactions of `close`. -/
inductive CloseEvent
  | finalizeCursor (i : Nat)
  | engineFinalize (h : Nat)
  | releaseHandle
deriving DecidableEq, Repr

/-- driver-side connection state. -/
structure DriverState where
  isOpen : Bool
  openError : Bool := false
  hasAccess : Bool := true
  results : List TrackedCursor := []
  lastError : QSqlError := {}
  closeCode : Int := 0
  errmsg : Str := []
deriving DecidableEq, Repr

/-- the events of forcing `SQLiteResultPrivate::finalize` on every tracked
cursor in order: each cursor is visited, and the engine's finalize is
invoked exactly when the cursor still holds a statement. -/
def finalizeEvents (cs : List TrackedCursor) : List CloseEvent :=
  (List.range cs.length).flatMap (fun i =>
    CloseEvent.finalizeCursor i ::
      (match (cs.getD i { stmt := none }).stmt with
       | some h => [CloseEvent.engineFinalize h]
       | none => []))

/-- `SQLiteDriver::close`: a no-op when the connection is not open;
otherwise every tracked cursor is finalized, then the native handle is
released — a failing release is reported as a ConnectionError but the
connection is still marked closed. -/
def driverClose (st : DriverState) : DriverState × List CloseEvent :=
  if st.isOpen then
    let evs := finalizeEvents st.results ++ [CloseEvent.releaseHandle]
    let st1 :=
      if st.closeCode ≠ 0 then
        { st with
            lastError :=
              { driverText := "Error closing database".data,
                databaseText := st.errmsg,
                errType := QSqlErrorType.ConnectionError, code := -1 } }
      else st
    ({ st1 with
        results := st.results.map (fun c => { c with stmt := none }),
        hasAccess := false, isOpen := false, openError := false },
     evs)
  else (st, [])

/-! ## Introspection: `qGetTableInfo` (lines 708–735) -/

/-- one row of `PRAGMA table_info`: (cid,) name, declared type, notnull,
default value, pk. -/
structure TableInfoRow where
  name : Str
  typeName : Str
  notnull : Int
  defaultValue : QVariant
  pk : Int
deriving DecidableEq, Repr

/-- the field `qGetTableInfo` builds from one pragma row: the type comes
from `qGetColumnType` of the lowercased declared name, and the auto-value
flag is set exactly for a primary-key column whose lowercased declared
type is the exact word "integer". -/
def mkTableField (r : TableInfoRow) : QSqlField :=
  let typeName := asciiToLower r.typeName
  { name := r.name,
    fieldType := qGetColumnType typeName,
    requiredStatus := r.notnull ≠ 0,
    defaultValue := r.defaultValue,
    autoValue := r.pk ≠ 0 ∧ typeName = "integer".data }

/-- `qGetTableInfo`: iterates the pragma rows, skipping non-primary-key
rows when `onlyPIndex` is set. -/
def qGetTableInfo (rows : List TableInfoRow) (onlyPIndex : Bool) :
    List QSqlField :=
  (rows.filter (fun r => ¬ (onlyPIndex ∧ r.pk = 0))).map mkTableField

/-! ## Concrete fixtures for witnesses and counterexamples -/

/-- a cursor on a closed connection, with no error recorded yet. -/
def stClosed : ResultState := { access := ⟨[]⟩, stmt := none }

/-- a statement declaring two placeholders. -/
def stmtTwoParams : Stmt :=
  { script := [StepOutcome.code 101], colCount := 0, colNames := [],
    declTypes := [], bindParamCount := 2 }

def stTwoParams : ResultState := { access := ⟨[]⟩, stmt := some stmtTwoParams }

/-- a statement whose next step reports SQLITE_CONSTRAINT (19), and whose
reset then returns 19 as the specific diagnostic code. -/
def stmtConstraint : Stmt :=
  { script := [StepOutcome.code 19], colCount := 1, colNames := [['x']],
    declTypes := [[]], bindParamCount := 0, resetCode := 19 }

def stConstraint : ResultState :=
  { access := ⟨"UNIQUE constraint failed".data⟩, stmt := some stmtConstraint }

/-- a zero-row statement with declared column types INTEGER and TEXT. -/
def stmtZeroRows : Stmt :=
  { script := [StepOutcome.code 101], colCount := 2,
    colNames := ["a".data, "b".data],
    declTypes := ["INTEGER".data, "TEXT".data], bindParamCount := 0 }

def stZeroRows : ResultState := { access := ⟨[]⟩, stmt := some stmtZeroRows }

/-- a statement producing exactly one row. -/
def stmtOneRow : Stmt :=
  { script := [StepOutcome.row [SqlVal.vinteger 7]], colCount := 1,
    colNames := ["n".data], declTypes := ["INTEGER".data],
    bindParamCount := 0 }

def stOneRow : ResultState := { access := ⟨[]⟩, stmt := some stmtOneRow }

/-- an open connection tracking three cursors, the second of which reports
a finalize error, and whose native close will fail with code 5. -/
def drv3 : DriverState :=
  { isOpen := true,
    results := [⟨some 10, 0⟩, ⟨some 11, 6⟩, ⟨some 12, 0⟩],
    closeCode := 5,
    errmsg := "unable to close due to unfinalised statements".data }

/-- pragma rows: a primary-key column declared INTEGER, and one declared
INT. -/
def rowIntegerPk : TableInfoRow :=
  ⟨"id".data, "INTEGER".data, 0, QVariant.invalid, 1⟩

def rowIntPk : TableInfoRow :=
  ⟨"id".data, "INT".data, 0, QVariant.invalid, 1⟩

/-! ## Helper lemmas -/

lemma fetchNext_skip (st : ResultState) (values : List QVariant) (idx : Int)
    (h : st.skipRow = true) :
    fetchNext st values idx false =
      (st.skippedStatus, { st with skipRow := false },
       copyFirstRow st.firstRow values) := by
  unfold fetchNext fetchNextRaw
  simp [h]

lemma bindAll_ok (vs : List QVariant) : bindAll vs [] = (vs.map bindCallOf, 0) := by
  induction vs with
  | nil => rfl
  | cons v vs ih => simp [bindAll, ih]

/-! ## C2: the declared-type classifier -/

/-- C2: the declared-type classifier is total and case-insensitive: for
every input string, lowercasing and comparing yields Integer for
"integer"/"int", Double for "double"/"float"/"real"/anything starting with
"numeric", ByteArray for "blob", and String otherwise; and the result
depends only on the lowercased form of the input. -/
theorem qGetColumnType_total_case_insensitive :
    (∀ s : Str,
      qGetColumnType s =
        (let t := asciiToLower s
         if t = "integer".data ∨ t = "int".data then QVariantType.vint
         else if t = "double".data ∨ t = "float".data ∨ t = "real".data
             ∨ "numeric".data.isPrefixOf t then QVariantType.vdouble
         else if t = "blob".data then QVariantType.vbytearray
         else QVariantType.vstring)) ∧
    (∀ s₁ s₂ : Str, asciiToLower s₁ = asciiToLower s₂ →
      qGetColumnType s₁ = qGetColumnType s₂) := by
  constructor
  · intro s; rfl
  · intro s₁ s₂ h
    unfold qGetColumnType
    rw [h]

theorem qGetColumnType_case_witness :
    asciiToLower "INT".data = asciiToLower "int".data ∧
    qGetColumnType "INT".data = qGetColumnType "int".data :=
  ⟨by decide, qGetColumnType_total_case_insensitive.2 _ _ (by decide)⟩

/-! ## C9: INTEGER PRIMARY KEY auto-value flag -/

/-- C9: a primary-key pragma row produces a field of the primary index,
and its auto-generated flag is set iff the lowercased declared type name
is exactly "integer" (so the synonym "int" is not flagged). -/
theorem primaryIndex_autoValue_iff :
    ∀ (rows : List TableInfoRow) (r : TableInfoRow),
      r ∈ rows → r.pk ≠ 0 →
      mkTableField r ∈ qGetTableInfo rows true ∧
      ((mkTableField r).autoValue = true ↔
        asciiToLower r.typeName = "integer".data) := by
  intro rows r hmem hpk
  constructor
  · unfold qGetTableInfo
    exact List.mem_map_of_mem _ (List.mem_filter.mpr ⟨hmem, by simp [hpk]⟩)
  · unfold mkTableField
    simp [hpk]

theorem primaryIndex_autoValue_witness :
    (mkTableField rowIntegerPk).autoValue = true ∧
    (mkTableField rowIntPk).autoValue = false ∧
    mkTableField rowIntegerPk ∈ qGetTableInfo [rowIntegerPk] true := by
  have h1 := primaryIndex_autoValue_iff [rowIntegerPk] rowIntegerPk
    (List.mem_singleton.mpr rfl) (by decide)
  have h2 := primaryIndex_autoValue_iff [rowIntPk] rowIntPk
    (List.mem_singleton.mpr rfl) (by decide)
  refine ⟨h1.2.mpr (by decide), ?_, h1.1⟩
  exact Bool.eq_false_iff.mpr
    (fun hh => (by decide : ¬ asciiToLower rowIntPk.typeName = "integer".data)
      (h2.2.mp hh))

/-! ## C8: prepare on a closed connection -/

/-- C8 counterexample: on a closed connection, `prepare` returns `false`
but records no StatementError — the cursor's last error is untouched. -/
theorem prepare_closed_cex :
    (prepare false false stClosed 0 none false).1 = false ∧
    (prepare false false stClosed 0 none false).2.lastError.errType ≠
      QSqlErrorType.StatementError := by decide

/-- C8 amended: a `prepare` call made while the connection is closed or in
an open-error state fails (returns `false`) and leaves the whole cursor
state — in particular its last error — unchanged. -/
theorem prepare_closed_amended :
    ∀ (drvOpen drvErr : Bool) (st : ResultState) (compileRes : Int)
      (compiledStmt : Option Stmt) (tailRemainder : Bool),
      drvOpen = false ∨ drvErr = true →
      prepare drvOpen drvErr st compileRes compiledStmt tailRemainder =
        (false, st) := by
  intro a b st cr cs tl h
  unfold prepare
  rcases h with h | h <;> simp [h]

theorem prepare_closed_amended_witness :
    prepare false true stClosed 0 none false = (false, stClosed) :=
  prepare_closed_amended false true stClosed 0 none false (Or.inr rfl)

/-! ## C4: parameter count mismatch -/

/-- C4 counterexample: on a mismatch, `exec` does fail with a
StatementError, but its message is "Parameter count mismatch" (capital P),
not "parameter count mismatch". -/
theorem exec_mismatch_cex :
    (exec stTwoParams [QVariant.vint 1]).1 = false ∧
    (exec stTwoParams [QVariant.vint 1]).2.lastError.errType =
      QSqlErrorType.StatementError ∧
    (exec stTwoParams [QVariant.vint 1]).2.lastError.driverText ≠
      "parameter count mismatch".data := by decide

/-- C4 amended: when the supplied value count differs from the declared
placeholder count, `exec` fails with a StatementError whose message is
"Parameter count mismatch", and performs zero bind calls against the
engine (and no engine step). -/
theorem exec_param_mismatch :
    ∀ (st : ResultState) (stmt : Stmt) (bvals : List QVariant),
      st.stmt = some stmt → stmt.resetCode = 0 →
      bvals.length ≠ stmt.bindParamCount →
      (exec st bvals).1 = false ∧
      (exec st bvals).2.lastError =
        { driverText := "Parameter count mismatch".data, databaseText := [],
          errType := QSqlErrorType.StatementError, code := -1 } ∧
      (exec st bvals).2.bindCalls = st.bindCalls ∧
      (exec st bvals).2.stepCount = st.stepCount := by
  intro st stmt bvals hstmt hreset hn
  unfold exec
  simp [hstmt, hreset, Ne.symm hn]

theorem exec_param_mismatch_witness :
    (exec stTwoParams []).1 = false ∧
    (exec stTwoParams []).2.lastError.driverText =
      "Parameter count mismatch".data := by
  have h := exec_param_mismatch stTwoParams stmtTwoParams [] rfl rfl (by decide)
  exact ⟨h.1, by rw [h.2.1]⟩

/-! ## C5: fetchNext error paths -/

/-- C5 counterexample: a constraint-violation step is translated into a
ConnectionError, not a StatementError as the claim states. -/
theorem fetchNext_error_cex :
    (fetchNext stConstraint [] 0 false).2.1.lastError.errType =
      QSqlErrorType.ConnectionError ∧
    (fetchNext stConstraint [] 0 false).2.1.lastError.errType ≠
      QSqlErrorType.StatementError := by decide

/-- C5 amended: on any engine step that reports an error code (anything
but a row or SQLITE_DONE), `fetchNext` resets the statement, stores a
ConnectionError (for a constraint violation or generic error, built from
the reset's specific diagnostic code) as the cursor's last error, marks
the cursor AfterLast, and returns hasRow = false; every such error path
sets the last error before returning. -/
theorem fetchNext_error_paths :
    ∀ (st : ResultState) (stmt : Stmt) (values : List QVariant) (idx : Int)
      (initialFetch : Bool) (c : Int),
      st.skipRow = false → st.stmt = some stmt →
      stmt.script.getD st.pos (StepOutcome.code 101) = StepOutcome.code c →
      c ≠ 101 →
      (fetchNext st values idx initialFetch).1 = false ∧
      (fetchNext st values idx initialFetch).2.1.atRow = afterLastRow ∧
      (fetchNext st values idx initialFetch).2.1.pos = 0 ∧
      (fetchNext st values idx initialFetch).2.1.lastError.isValid = true ∧
      (fetchNext st values idx initialFetch).2.1.lastError.errType =
        QSqlErrorType.ConnectionError ∧
      (c = 19 ∨ c = 1 →
        (fetchNext st values idx initialFetch).2.1.lastError =
          qMakeError st.access "Unable to fetch row".data
            QSqlErrorType.ConnectionError stmt.resetCode) := by
  intro st stmt values idx initialFetch c hskip hstmt hscript hc
  simp only [List.getD_eq_getElem?_getD] at hscript
  by_cases h19 : c = 19 ∨ c = 1 <;>
    cases initialFetch <;>
      simp [fetchNext, fetchNextRaw, hskip, hstmt, hscript, hc, h19,
        qMakeError, QSqlError.isValid]

theorem fetchNext_error_paths_witness :
    (fetchNext stConstraint [] 0 false).1 = false ∧
    (fetchNext stConstraint [] 0 false).2.1.lastError =
      qMakeError stConstraint.access "Unable to fetch row".data
        QSqlErrorType.ConnectionError 19 := by
  have h := fetchNext_error_paths stConstraint stmtConstraint [] 0 false 19
    rfl rfl rfl (by decide)
  exact ⟨h.1, h.2.2.2.2.2 (Or.inl rfl)⟩

/-! ## C3: zero-row column shape -/

lemma initColumns_none_eq (stmt : Stmt) :
    initColumns stmt none [] =
      (List.range stmt.colCount).map (fun i =>
        { name := (stmt.colNames.getD i []).filter (fun c => c ≠ '"'),
          fieldType :=
            if stmt.declTypes.getD i [] ≠ [] then
              qGetColumnType (stmt.declTypes.getD i [])
            else QVariantType.invalid,
          sqlType := -1 }) := by
  unfold initColumns
  by_cases h : stmt.colCount = 0
  · simp [h]
  · simp only [h, if_false, List.nil_append]
    rfl

/-- C3: when the first step of a query is already exhausted (zero rows),
`fetchNext` returns hasRow = false and populates the column shape from
declared-type-name inference alone: every field's storage-class hint is
the forced invalid marker `-1`, and its type is `qGetColumnType` of the
declared name when one exists (never a per-value storage class, since no
row is ever consulted). -/
theorem zero_row_shape_from_decltypes :
    ∀ (st : ResultState) (stmt : Stmt) (values : List QVariant) (idx : Int)
      (initialFetch : Bool),
      st.skipRow = false → st.stmt = some stmt → st.rInf = [] →
      stmt.script.getD st.pos (StepOutcome.code 101) = StepOutcome.code 101 →
      (fetchNext st values idx initialFetch).1 = false ∧
      (fetchNext st values idx initialFetch).2.1.atRow = afterLastRow ∧
      (fetchNext st values idx initialFetch).2.1.rInf =
        (List.range stmt.colCount).map (fun i =>
          { name := (stmt.colNames.getD i []).filter (fun c => c ≠ '"'),
            fieldType :=
              if stmt.declTypes.getD i [] ≠ [] then
                qGetColumnType (stmt.declTypes.getD i [])
              else QVariantType.invalid,
            sqlType := -1 }) := by
  intro st stmt values idx initialFetch hskip hstmt hrinf hscript
  simp only [List.getD_eq_getElem?_getD] at hscript
  cases initialFetch <;>
    simp [fetchNext, fetchNextRaw, hskip, hstmt, hrinf, hscript,
      initColumns_none_eq]

theorem zero_row_shape_witness :
    (fetchNext stZeroRows [] 0 false).1 = false ∧
    (fetchNext stZeroRows [] 0 false).2.1.rInf =
      [{ name := "a".data, fieldType := QVariantType.vint, sqlType := -1 },
       { name := "b".data, fieldType := QVariantType.vstring, sqlType := -1 }] := by
  have h := zero_row_shape_from_decltypes stZeroRows stmtZeroRows [] 0 false
    rfl rfl rfl rfl
  exact ⟨h.1, h.2.2.trans (by decide)⟩

/-! ## C6: closing the connection -/

/-- C6: `close` is a no-op on a closed connection; on an open one it
finalizes every tracked cursor (each cursor is visited regardless of its
state, and any finalize failure is ignored) strictly before releasing the
native handle, and — even when the native release fails — the failure is
reported as a ConnectionError while the connection is still marked
closed. -/
theorem close_finalizes_all_before_release :
    ∀ st : DriverState,
      (st.isOpen = false → driverClose st = (st, [])) ∧
      (st.isOpen = true →
        (driverClose st).2 =
          finalizeEvents st.results ++ [CloseEvent.releaseHandle] ∧
        (∀ i, i < st.results.length →
          CloseEvent.finalizeCursor i ∈ finalizeEvents st.results) ∧
        (driverClose st).1.isOpen = false ∧
        (driverClose st).1.openError = false ∧
        (st.closeCode ≠ 0 →
          (driverClose st).1.lastError.errType =
            QSqlErrorType.ConnectionError)) := by
  intro st
  constructor
  · intro h
    simp [driverClose, h]
  · intro h
    refine ⟨by simp [driverClose, h], ?_, by simp [driverClose, h], by simp [driverClose, h], ?_⟩
    · intro i hi
      exact List.mem_flatMap.mpr
        ⟨i, List.mem_range.mpr hi, List.mem_cons_self _ _⟩
    · intro hcc
      simp [driverClose, h, hcc]

theorem close_finalizes_all_before_release_witness :
    (driverClose drv3).2 =
      [CloseEvent.finalizeCursor 0, CloseEvent.engineFinalize 10,
       CloseEvent.finalizeCursor 1, CloseEvent.engineFinalize 11,
       CloseEvent.finalizeCursor 2, CloseEvent.engineFinalize 12,
       CloseEvent.releaseHandle] ∧
    (driverClose drv3).1.isOpen = false ∧
    (driverClose drv3).1.lastError.errType =
      QSqlErrorType.ConnectionError := by
  have h := (close_finalizes_all_before_release drv3).2 rfl
  exact ⟨h.1.trans (by decide), h.2.2.1, h.2.2.2.2 (by decide)⟩

/-! ## C1: the lookahead row is delivered exactly once -/

/-- C1: (i) when the pending-lookahead flag is set, `fetchNext` copies the
cached first row into the caller's value cache, clears the flag, and
returns the cached outcome without stepping the engine (the state changes
only in the flag, so the step count is untouched); (ii) consequently, for
a statement whose first step outcome is a single row or exhaustion,
a successful `exec` followed by the first `fetchNext` performs exactly one
engine step in total, and that first `fetchNext` returns exec's cached
lookahead outcome. -/
theorem lookahead_delivered_once :
    (∀ (st : ResultState) (values : List QVariant) (idx : Int),
      st.skipRow = true →
      fetchNext st values idx false =
        (st.skippedStatus, { st with skipRow := false },
         copyFirstRow st.firstRow values)) ∧
    (∀ (st : ResultState) (stmt : Stmt) (bvals cache : List QVariant)
       (idx : Int),
      st.stmt = some stmt → stmt.resetCode = 0 → stmt.bindCodes = [] →
      bvals.length = stmt.bindParamCount →
      ((∃ vs, stmt.script.getD 0 (StepOutcome.code 101) = StepOutcome.row vs) ∨
        stmt.script.getD 0 (StepOutcome.code 101) = StepOutcome.code 101) →
      (exec st bvals).1 = true ∧
      (exec st bvals).2.stepCount = st.stepCount + 1 ∧
      (fetchNext (exec st bvals).2 cache idx false).1 =
        (exec st bvals).2.skippedStatus ∧
      (fetchNext (exec st bvals).2 cache idx false).2.1.stepCount =
        st.stepCount + 1) := by
  constructor
  · exact fetchNext_skip
  · intro st stmt bvals cache idx hstmt hreset hcodes hlen hhead
    simp only [List.getD_eq_getElem?_getD] at hhead
    have hskipify : ∀ e : Bool × ResultState, e.2.skipRow = true →
        (fetchNext e.2 cache idx false).1 = e.2.skippedStatus ∧
        (fetchNext e.2 cache idx false).2.1.stepCount = e.2.stepCount := by
      intro e he
      rw [fetchNext_skip e.2 cache idx he]
      exact ⟨rfl, rfl⟩
    rcases hhead with ⟨vs, hs⟩ | hs <;>
    · refine ?_
      have hrun : (exec st bvals).1 = true ∧
          (exec st bvals).2.stepCount = st.stepCount + 1 ∧
          (exec st bvals).2.skipRow = true := by
        cases hib : st.lastError.isValid <;>
          simp [exec, fetchNext, fetchNextRaw, hstmt, hreset, hcodes, hlen,
            bindAll_ok, hs, QSqlError.isValid]
      have hfin := hskipify (exec st bvals) hrun.2.2
      exact ⟨hrun.1, hrun.2.1, hfin.1, hfin.2.trans hrun.2.1⟩

theorem lookahead_delivered_once_witness :
    (exec stOneRow []).1 = true ∧
    (exec stOneRow []).2.stepCount = 1 ∧
    (fetchNext (exec stOneRow []).2 [QVariant.invalid] 0 false).1 = true ∧
    (fetchNext (exec stOneRow []).2 [QVariant.invalid] 0 false).2.1.stepCount
      = 1 := by
  have h := lookahead_delivered_once.2 stOneRow stmtOneRow [] [QVariant.invalid]
    0 rfl rfl rfl rfl (Or.inl ⟨[SqlVal.vinteger 7], rfl⟩)
  refine ⟨h.1, h.2.1, h.2.2.1.trans (by decide), h.2.2.2⟩

/-! ## C7/C10: identifier escaping -/

lemma replaceChar_append (t : Char) (r : Str) (a b : Str) :
    replaceChar t r (a ++ b) = replaceChar t r a ++ replaceChar t r b := by
  induction a with
  | nil => rfl
  | cons c cs ih => simp [replaceChar, ih]

lemma splitOnDot_ne_nil (s : Str) : splitOnDot s ≠ [] := by
  cases s with
  | nil => simp [splitOnDot]
  | cons c cs =>
    unfold splitOnDot
    by_cases h : c = '.'
    · simp [h]
    · simp only [h, if_false]
      cases splitOnDot cs <;> simp

lemma joinDot_wrapSeg_eq_cons (seg : Str) (rest : List Str) :
    joinDot wrapSeg (seg :: rest) =
      '"' :: (joinDot wrapSeg (seg :: rest)).tail := by
  cases rest <;> simp [joinDot, wrapSeg]

lemma joinDot_wrapSeg_head_cons (c : Char) (seg : Str) (rest : List Str) :
    joinDot wrapSeg ((c :: seg) :: rest) =
      '"' :: ((if c = '"' then ['"', '"'] else [c]) ++
        (joinDot wrapSeg (seg :: rest)).tail) := by
  cases rest <;> by_cases hq : c = '"' <;>
    simp [joinDot, wrapSeg, replaceChar, hq]

/-- the transformation branch of `escapeIdentifierImpl` wraps each
dot-separated segment in quotes with embedded quotes doubled. -/
lemma escape_core (s : Str) :
    replaceChar '.' ['"', '.', '"']
        ('"' :: replaceChar '"' ['"', '"'] s ++ ['"']) =
      joinDot wrapSeg (splitOnDot s) := by
  have hqd : ¬ (('"' : Char) = '.') := by decide
  induction s with
  | nil => rfl
  | cons c cs ih =>
    rcases hsp : splitOnDot cs with _ | ⟨seg, rest⟩
    · exact absurd hsp (splitOnDot_ne_nil cs)
    rw [hsp] at ih
    by_cases hdot : c = '.'
    · subst hdot
      have hsplit : splitOnDot ('.' :: cs) = [] :: seg :: rest := by
        simp [splitOnDot, hsp]
      rw [hsplit]
      simp only [joinDot]
      rw [← ih]
      simp [replaceChar, wrapSeg, hqd]
    · have hsplit : splitOnDot (c :: cs) = (c :: seg) :: rest := by
        simp [splitOnDot, hdot, hsp]
      rw [hsplit, joinDot_wrapSeg_head_cons, ← ih]
      by_cases hq : c = '"' <;>
        simp [replaceChar, hq, hqd, hdot]

/-- C7 counterexample: `"a` is neither fully wrapped in quotes at both
ends (so the claim demands the quoting transformation) nor transformed by
the code, which returns it unchanged because it merely *begins* with a
quote. -/
theorem escapeIdentifier_claim_cex :
    escapeIdentifierImpl ['"', 'a'] ≠ claimEscape ['"', 'a'] := by decide

/-- C7 amended: `escapeIdentifier` returns the identifier unchanged when
it is empty, begins with a quote, or ends with a quote; otherwise it
doubles every embedded quote character and wraps each dot-separated
segment in quotes (so `a.b` becomes `"a"."b"`). -/
theorem escapeIdentifier_amended :
    ∀ s : Str,
      escapeIdentifierImpl s =
        if s = [] ∨ s.take 1 = ['"'] ∨ s.drop (s.length - 1) = ['"'] then s
        else joinDot wrapSeg (splitOnDot s) := by
  intro s
  unfold escapeIdentifierImpl
  by_cases h1 : s = []
  · simp [h1]
  · by_cases h2 : s.take 1 = ['"']
    · simp [h1, h2]
    · by_cases h3 : s.drop (s.length - 1) = ['"']
      · simp [h1, h2, h3]
      · simp only [h1, h2, h3]
        simp only [if_pos (And.intro h1 (And.intro h2 h3)),
          if_neg (by simp [h1, h2, h3] : ¬ (s = [] ∨ List.take 1 s = ['"']
            ∨ List.drop (s.length - 1) s = ['"']))]
        exact escape_core s

lemma escapeIdentifier_unchanged (t : Str)
    (ht : t = [] ∨ t.take 1 = ['"'] ∨ t.drop (t.length - 1) = ['"']) :
    escapeIdentifierImpl t = t := by
  unfold escapeIdentifierImpl
  rcases ht with h | h | h <;> simp [h]

lemma escapeIdentifier_out (t : Str) (h1 : t ≠ []) (h2 : t.take 1 ≠ ['"'])
    (h3 : t.drop (t.length - 1) ≠ ['"']) :
    (escapeIdentifierImpl t).take 1 = ['"'] ∧
    (escapeIdentifierImpl t).drop ((escapeIdentifierImpl t).length - 1) =
      ['"'] := by
  unfold escapeIdentifierImpl
  rw [if_pos ⟨h1, h2, h3⟩]
  have hsplit : ('"' :: replaceChar '"' ['"', '"'] t ++ ['"']) =
      ('"' :: replaceChar '"' ['"', '"'] t) ++ ['"'] := rfl
  rw [hsplit, replaceChar_append]
  constructor
  · simp [replaceChar]
  · have hlast : replaceChar '.' ['"', '.', '"'] ['"'] = ['"'] := by
      simp [replaceChar]
    rw [hlast]
    simp

/-- C10: `escapeIdentifier` is idempotent, because the empty string is
returned unchanged, any identifier that begins with a quote or ends with
a quote (not only one fully quoted at both ends) is returned unchanged,
and every produced output both begins and ends with a quote. -/
theorem escapeIdentifier_idempotent :
    ∀ s : Str,
      escapeIdentifierImpl (escapeIdentifierImpl s) = escapeIdentifierImpl s ∧
      (s = [] → escapeIdentifierImpl s = s) ∧
      (s.take 1 = ['"'] ∨ s.drop (s.length - 1) = ['"'] →
        escapeIdentifierImpl s = s) ∧
      (s ≠ [] → s.take 1 ≠ ['"'] → s.drop (s.length - 1) ≠ ['"'] →
        (escapeIdentifierImpl s).take 1 = ['"'] ∧
        (escapeIdentifierImpl s).drop ((escapeIdentifierImpl s).length - 1) =
          ['"']) := by
  intro s
  refine ⟨?_, fun h => escapeIdentifier_unchanged s (Or.inl h),
    fun h => escapeIdentifier_unchanged s (Or.inr h),
    escapeIdentifier_out s⟩
  by_cases h1 : s = []
  · rw [escapeIdentifier_unchanged s (Or.inl h1),
      escapeIdentifier_unchanged s (Or.inl h1)]
  · by_cases h2 : s.take 1 = ['"']
    · rw [escapeIdentifier_unchanged s (Or.inr (Or.inl h2)),
        escapeIdentifier_unchanged s (Or.inr (Or.inl h2))]
    · by_cases h3 : s.drop (s.length - 1) = ['"']
      · rw [escapeIdentifier_unchanged s (Or.inr (Or.inr h3)),
          escapeIdentifier_unchanged s (Or.inr (Or.inr h3))]
      · exact escapeIdentifier_unchanged _
          (Or.inr (Or.inl (escapeIdentifier_out s h1 h2 h3).1))

theorem escapeIdentifier_idempotent_witness :
    escapeIdentifierImpl (escapeIdentifierImpl ['a', '.', 'b']) =
      escapeIdentifierImpl ['a', '.', 'b'] ∧
    escapeIdentifierImpl ['x', '"'] = ['x', '"'] ∧
    (escapeIdentifierImpl ['a']).take 1 = ['"'] := by
  refine ⟨(escapeIdentifier_idempotent ['a', '.', 'b']).1,
    (escapeIdentifier_idempotent ['x', '"']).2.2.1 (Or.inr (by decide)),
    ((escapeIdentifier_idempotent ['a']).2.2.2 (by decide) (by decide)
      (by decide)).1⟩

end SqliteDriver
